import Mathlib

/-!
Shallow embedding of the claudecodeui integration components:
`src/components/MultiAgentChat.jsx` (chat session controller over a
WebSocket) and `src/components/IntegrationDashboard.jsx` (service
health poller).  JavaScript objects used as string-keyed maps are
modelled as ordered association lists with JS-object update semantics
(updating an existing key keeps its position, a new key is appended).
`WebSocket.readyState` is modelled as a `Nat` (CONNECTING = 0,
OPEN = 1).  Wall-clock reads (`Date.now()`, timestamps) are passed in
as parameters.  Network sends and socket creations are returned as
explicit effect values.
-/

namespace ClaudeCodeUI

/-- `WebSocket.CONNECTING` browser constant. -/
def WebSocketCONNECTING : Nat := 0

/-- `WebSocket.OPEN` browser constant. -/
def WebSocketOPEN : Nat := 1

/-- A WebSocket handle as the chat controller observes it: its
`readyState` and the URL it was constructed with. -/
structure Socket where
  readyState : Nat
  url : String
deriving DecidableEq, Repr

/-- `AUTOGEN_WS_URL` constant from MultiAgentChat.jsx. -/
def AUTOGEN_WS_URL : String := "ws://localhost:8000/ws/chat"

/-- One entry of the `messages` log.  JS message objects carry a
subset of these fields depending on `type`; absent fields are `none`. -/
structure ChatMessage where
  type : String
  sender : Option String := none
  content : Option String := none
  timestamp : String
  action : Option String := none
  result : Option String := none
  success : Option Bool := none
deriving DecidableEq, Repr

/-- JS-object update `{...m, [k]: v}`: replace the value of an existing
key in place, otherwise append the new binding at the end. -/
def objInsert (k v : String) : List (String × String) → List (String × String)
  | [] => [(k, v)]
  | (k', v') :: rest =>
      if k' = k then (k, v) :: rest else (k', v') :: objInsert k v rest

/-- Key lookup in a JS-object association list. -/
def olookup (k : String) : List (String × String) → Option String
  | [] => none
  | (k', v) :: rest => if k' = k then some v else olookup k rest

/-- The React state of `MultiAgentChat` together with the `wsRef` ref. -/
structure ChatState where
  messages : List ChatMessage
  inputValue : String
  selectedAgents : List String
  isConnected : Bool
  isConnecting : Bool
  agentStatuses : List (String × String)
  sessionId : Option String
  error : Option String
  wsRef : Option Socket
deriving DecidableEq, Repr

/-- Envelopes the client sends over the socket (`ws.send(JSON.stringify(...))`). -/
inductive OutEnvelope
  | startSession (agents : List String)
  | userMessage (content : String)
  | endSession
deriving DecidableEq, Repr

/-- Result of a `connect()` call: the new state and how many `new
WebSocket(...)` constructions the call performed. -/
structure ConnectResult where
  state : ChatState
  socketsCreated : Nat
deriving DecidableEq, Repr

/-- `connect` from MultiAgentChat.jsx.  Returns early iff the current
socket's `readyState` is `OPEN`; otherwise sets `isConnecting`, clears
`error`, generates a fresh time-based session id, and replaces `wsRef`
with a newly constructed socket (initially `CONNECTING`).  `now` stands
for `Date.now()`. -/
def connect (now : Nat) (s : ChatState) : ConnectResult :=
  if s.wsRef.map Socket.readyState = some WebSocketOPEN then
    { state := s, socketsCreated := 0 }
  else
    let newSessionId := "claude-ui-" ++ toString now
    let ws : Socket :=
      { readyState := WebSocketCONNECTING, url := AUTOGEN_WS_URL ++ "/" ++ newSessionId }
    { state := { s with
        isConnecting := true
        error := none
        sessionId := some newSessionId
        wsRef := some ws }
      socketsCreated := 1 }

/-- The `ws.onopen` handler: marks connected, stops connecting, and
appends the connection `system` message.  `ts` stands for
`new Date().toISOString()`; the socket held in `wsRef` is now `OPEN`. -/
def onOpen (ts : String) (s : ChatState) : ChatState :=
  { s with
      isConnected := true
      isConnecting := false
      messages := s.messages ++
        [{ type := "system"
           content := some "Connected to Multi-Agent Meeting Room"
           timestamp := ts }]
      wsRef := s.wsRef.map fun ws => { ws with readyState := WebSocketOPEN } }

/-- The `ws.onclose` handler: clears connected/connecting flags and
empties the agent-status map. -/
def onClose (s : ChatState) : ChatState :=
  { s with isConnected := false, isConnecting := false, agentStatuses := [] }

/-- `disconnect` from MultiAgentChat.jsx.  If a socket is held and it is
`OPEN`, an `end_session` envelope is sent before `close()`; the ref is
dropped; `isConnected` and `sessionId` are always cleared.  The second
component lists the envelopes sent. -/
def disconnect (s : ChatState) : ChatState × List OutEnvelope :=
  match s.wsRef with
  | some ws =>
      let sent := if ws.readyState = WebSocketOPEN then [OutEnvelope.endSession] else []
      ({ s with wsRef := none, isConnected := false, sessionId := none }, sent)
  | none => ({ s with isConnected := false, sessionId := none }, [])

/-- Envelopes arriving on the socket, after JSON parsing, discriminated
on `data.type`.  Fields the handler reads with optional chaining or
`||`-fallbacks are `Option`s; an unrecognized `type` is `unknown`. -/
inductive InEnvelope
  | message (sender : Option String) (content : Option String) (timestamp : Option String)
  | status (agent : Option String) (status : String)
  | error (message : Option String)
  | sessionStarted (agents : Option (List String))
  | actionResult (action : String) (result : String) (success : Bool)
  | unknown (t : String)
deriving DecidableEq, Repr

/-- The JS computed key `[x?.toLowerCase()]`: an `undefined` field turns
into the literal object key `"undefined"`, otherwise the lower-cased
string. -/
def jsKey : Option String → String
  | none => "undefined"
  | some s => s.toLower

/-- JS `x || fallback` for a possibly-absent string: `undefined` and
the empty string are falsy. -/
def jsOrElse (x : Option String) (fallback : String) : String :=
  match x with
  | some s => if s = "" then fallback else s
  | none => fallback

/-- Whitespace as JS `String.prototype.trim` treats it (the code points
that occur in practice; exotic Unicode spaces are not relevant here). -/
def isJsWhitespace (c : Char) : Bool :=
  c = ' ' ∨ c = '\t' ∨ c = '\n' ∨ c = '\r' ∨ c = '\x0b' ∨ c = '\x0c'

/-- JS `s.trim()`: strip leading and trailing whitespace. -/
def jsTrim (s : String) : String :=
  String.mk (((s.data.dropWhile isJsWhitespace).reverse.dropWhile isJsWhitespace).reverse)

/-- `handleWebSocketMessage` from MultiAgentChat.jsx.  `now` stands for
`new Date().toISOString()` at receipt time. -/
def handleWebSocketMessage (now : String) (e : InEnvelope) (s : ChatState) : ChatState :=
  match e with
  | .message sender content timestamp =>
      { s with
          messages := s.messages ++
            [{ type := "agent", sender := sender, content := content
               timestamp := jsOrElse timestamp now }]
          agentStatuses := objInsert (jsKey sender) "idle" s.agentStatuses }
  | .status agent st =>
      { s with agentStatuses := objInsert (jsKey agent) st s.agentStatuses }
  | .error msg =>
      { s with
          messages := s.messages ++
            [{ type := "error", content := some (jsOrElse msg "Unknown error")
               timestamp := now }] }
  | .sessionStarted agents =>
      let joined := match agents with
        | some l => String.intercalate ", " l
        | none => "undefined"
      { s with
          messages := s.messages ++
            [{ type := "system"
               content := some ("Session started with agents: " ++ joined)
               timestamp := now }] }
  | .actionResult action result success =>
      { s with
          messages := s.messages ++
            [{ type := "action", action := some action, result := some result
               success := some success, timestamp := now }] }
  | .unknown _ => s

/-- Result of a `startSession()` call: the new state, the envelopes sent
synchronously, the agent list captured by a scheduled 500 ms timer
callback (`none` when no timer was set), and how many sockets the call
constructed. -/
structure StartResult where
  state : ChatState
  sentNow : List OutEnvelope
  timerAgents : Option (List String)
  socketsCreated : Nat
deriving DecidableEq, Repr

/-- `startSession` from MultiAgentChat.jsx.  With no open socket it
calls `connect()` and schedules a 500 ms timer capturing the current
`selectedAgents`; with an open socket it sends `start_session`
immediately. -/
def startSession (now : Nat) (s : ChatState) : StartResult :=
  if ¬ (s.wsRef.map Socket.readyState = some WebSocketOPEN) then
    let c := connect now s
    { state := c.state, sentNow := [], timerAgents := some s.selectedAgents
      socketsCreated := c.socketsCreated }
  else
    { state := s, sentNow := [OutEnvelope.startSession s.selectedAgents]
      timerAgents := none, socketsCreated := 0 }

/-- The 500 ms timer callback scheduled by `startSession`: evaluated
against the state at firing time, it sends `start_session` with the
captured agent list iff the socket in `wsRef` is then `OPEN`. -/
def startSessionTimerFire (captured : List String) (s : ChatState) : List OutEnvelope :=
  if s.wsRef.map Socket.readyState = some WebSocketOPEN then
    [OutEnvelope.startSession captured]
  else []

/-- `sendMessage` from MultiAgentChat.jsx.  Guard: non-empty trimmed
input and an `OPEN` socket; otherwise nothing happens.  On success the
trimmed text is appended as a `user` message, a `user_message` envelope
is sent, the input is cleared, and `agentStatuses` is replaced by a
fresh object mapping each selected agent to `"thinking"`.  `ts` stands
for `new Date().toISOString()`. -/
def sendMessage (ts : String) (s : ChatState) : ChatState × List OutEnvelope :=
  if jsTrim s.inputValue = "" ∨ ¬ (s.wsRef.map Socket.readyState = some WebSocketOPEN) then
    (s, [])
  else
    let content := jsTrim s.inputValue
    let newStatuses := s.selectedAgents.foldl (fun m a => objInsert a "thinking" m) []
    ({ s with
        messages := s.messages ++
          [{ type := "user", content := some content, timestamp := ts }]
        inputValue := ""
        agentStatuses := newStatuses },
     [OutEnvelope.userMessage content])

/-- `toggleAgent` from MultiAgentChat.jsx: remove the id if present in
`selectedAgents` (filter), otherwise append it. -/
def toggleAgent (agentId : String) (s : ChatState) : ChatState :=
  { s with selectedAgents :=
      if s.selectedAgents.contains agentId then
        s.selectedAgents.filter (fun i => i ≠ agentId)
      else
        s.selectedAgents ++ [agentId] }

/-- A click on an agent-selector button.  The button carries
`disabled={isConnected}`, so the `onClick={() => toggleAgent(agent.id)}`
handler only runs while not connected. -/
def agentButtonClick (agentId : String) (s : ChatState) : ChatState :=
  if s.isConnected then s else toggleAgent agentId s

/-! IntegrationDashboard.jsx -/

/-- Outcome of `response.json()`: a parseable JSON body (its payload
kept abstract as a string), or a parse failure whose thrown error
carries `errMsg` and has name `"SyntaxError"`. -/
inductive BodyParse
  | ok (payload : String)
  | fail (errMsg : String)
deriving DecidableEq, Repr

/-- Outcome of the `fetch` of a health endpoint: either a response
arrived (with its HTTP status and the fate of its body), or `fetch`
itself rejected with an error of the given `name` and `message`
(`"AbortError"` when the 5000 ms timer fired the abort controller). -/
inductive FetchOutcome
  | response (status : Nat) (body : BodyParse)
  | failure (name : String) (message : String)
deriving DecidableEq, Repr

/-- The per-service record `checkServiceHealth` resolves with. -/
structure HealthResult where
  status : String
  data : Option String := none
  error : Option String := none
  latency : Option Int := none
deriving DecidableEq, Repr

/-- `response.ok` is true iff the HTTP status is in [200, 299]. -/
def responseOk (status : Nat) : Bool := 200 ≤ status ∧ status ≤ 299

/-- The `catch (err)` block of `checkServiceHealth`. -/
def healthCatch (name message : String) : HealthResult :=
  if name = "AbortError" then
    { status := "timeout", error := some "Request timeout" }
  else
    { status := "offline", error := some message }

/-- `checkServiceHealth` from IntegrationDashboard.jsx.  `lat` stands
for the value of `Date.now() - performance.now()` recorded on the
online path.  A 2xx response with a parseable body is `online`; a 2xx
response whose `response.json()` throws falls into the same `catch` as
transport failures (the thrown `SyntaxError` is not an `AbortError`);
a non-2xx response is `error` carrying the status code. -/
def checkServiceHealth (lat : Int) (o : FetchOutcome) : HealthResult :=
  match o with
  | .response status body =>
      if responseOk status then
        match body with
        | .ok payload => { status := "online", data := some payload, latency := some lat }
        | .fail errMsg => healthCatch "SyntaxError" errMsg
      else
        { status := "error", error := some ("HTTP " ++ toString status) }
  | .failure name message => healthCatch name message

/-- One entry of the `SERVICES` constant (only the fields the poller
logic reads). -/
structure Service where
  id : String
  healthUrl : String
deriving DecidableEq, Repr

/-- The `SERVICES` constant from IntegrationDashboard.jsx, in source
order. -/
def SERVICES : List Service :=
  [ { id := "news-podcaster", healthUrl := "http://localhost:8080/api/health" },
    { id := "genai-gateway", healthUrl := "http://localhost:8000/api/v1/health" },
    { id := "n8n", healthUrl := "http://localhost:5678/healthz" },
    { id := "claudecodeui", healthUrl := "/health" } ]

/-- Lookup in the `serviceStatuses` object (`statuses[service.id]`). -/
def hlookup (k : String) : List (String × HealthResult) → Option HealthResult
  | [] => none
  | (k', v) :: rest => if k' = k then some v else hlookup k rest

/-- The dashboard's React state (the slice `refreshAll` touches). -/
structure DashState where
  serviceStatuses : List (String × HealthResult)
  isRefreshing : Bool
  lastUpdated : Option Nat
deriving DecidableEq, Repr

/-- Observable steps of one `refreshAll` run, in execution order. -/
inductive DashEvent
  | probed (id : String)
  | storedStatuses
  | fetchedGatewayDetails
  | fetchedPodcastRuns
  | setLastUpdated
deriving DecidableEq, Repr

/-- `refreshAll` from IntegrationDashboard.jsx.  `probe` gives the
outcome of each service's health fetch and `lat` its recorded latency
value; `now` stands for `new Date()`.  The `for ... of SERVICES` loop
awaits each probe in turn into a local `statuses` object, which is then
stored wholesale; secondary detail fetches run only for the gateway and
the podcaster when their just-computed status is `online`; the
last-updated timestamp is set unconditionally at the end.  The second
component is the trace of observable steps. -/
def refreshAll (probe : Service → FetchOutcome) (lat : Service → Int) (now : Nat)
    (_s : DashState) : DashState × List DashEvent :=
  let step := fun (acc : List (String × HealthResult) × List DashEvent) (svc : Service) =>
    let r := checkServiceHealth (lat svc) (probe svc)
    (acc.1 ++ [(svc.id, r)], acc.2 ++ [DashEvent.probed svc.id])
  let loop := SERVICES.foldl step ([], [])
  let statuses := loop.1
  let gatewayEvents :=
    if (hlookup "genai-gateway" statuses).map HealthResult.status = some "online" then
      [DashEvent.fetchedGatewayDetails]
    else []
  let podcastEvents :=
    if (hlookup "news-podcaster" statuses).map HealthResult.status = some "online" then
      [DashEvent.fetchedPodcastRuns]
    else []
  ({ serviceStatuses := statuses, isRefreshing := false, lastUpdated := some now },
   loop.2 ++ [DashEvent.storedStatuses] ++ gatewayEvents ++ podcastEvents ++
     [DashEvent.setLastUpdated])

/-! Concrete states used by witnesses and counterexamples. -/

/-- A state in the middle of a connection attempt: `isConnecting` is
set and the held socket is still `CONNECTING`. -/
def connectingState : ChatState :=
  { messages := [], inputValue := "", selectedAgents := ["gemini", "claude"]
    isConnected := false, isConnecting := true, agentStatuses := []
    sessionId := some "claude-ui-1", error := none
    wsRef := some { readyState := WebSocketCONNECTING
                    url := AUTOGEN_WS_URL ++ "/claude-ui-1" } }

/-- The initial, fully disconnected state (defaults of the component). -/
def disconnectedState : ChatState :=
  { messages := [], inputValue := "", selectedAgents := ["gemini", "claude"]
    isConnected := false, isConnecting := false, agentStatuses := []
    sessionId := none, error := none, wsRef := none }

/-- A connected state holding an `OPEN` socket. -/
def openState : ChatState :=
  { messages := [], inputValue := "", selectedAgents := ["gemini", "claude"]
    isConnected := true, isConnecting := false
    agentStatuses := [("gemini", "thinking")]
    sessionId := some "claude-ui-1", error := none
    wsRef := some { readyState := WebSocketOPEN
                    url := AUTOGEN_WS_URL ++ "/claude-ui-1" } }

/-- A connected state with pending input, one selected agent, and a
status entry for an agent outside the selected set. -/
def sendFrameState : ChatState :=
  { messages := [], inputValue := "hi", selectedAgents := ["gemini"]
    isConnected := true, isConnecting := false
    agentStatuses := [("ollama", "idle")]
    sessionId := some "claude-ui-1", error := none
    wsRef := some { readyState := WebSocketOPEN
                    url := AUTOGEN_WS_URL ++ "/claude-ui-1" } }

/-- The dashboard state before the first refresh. -/
def initialDashState : DashState :=
  { serviceStatuses := [], isRefreshing := false, lastUpdated := none }

/-- An environment in which every health fetch rejects with a network
error. -/
def allFailProbe : Service → FetchOutcome :=
  fun _ => FetchOutcome.failure "TypeError" "Failed to fetch"

/-! Helper lemmas on the JS-object association-list operations. -/

theorem olookup_objInsert_self (k v : String) (m : List (String × String)) :
    olookup k (objInsert k v m) = some v := by
  induction m with
  | nil => simp [objInsert, olookup]
  | cons p rest ih =>
      obtain ⟨k', v'⟩ := p
      by_cases h : k' = k
      · simp [objInsert, h, olookup]
      · simp [objInsert, h, olookup, ih]

theorem olookup_objInsert_ne {k' k : String} (v : String)
    (m : List (String × String)) (h : k' ≠ k) :
    olookup k' (objInsert k v m) = olookup k' m := by
  induction m with
  | nil => simp [objInsert, olookup, Ne.symm h]
  | cons p rest ih =>
      obtain ⟨k'', v''⟩ := p
      by_cases hk : k'' = k
      · subst hk
        simp [objInsert, olookup, Ne.symm h]
      · simp [objInsert, hk, olookup, ih]

theorem olookup_foldl_thinking (l : List String) (m : List (String × String))
    (a : String) :
    olookup a (l.foldl (fun acc x => objInsert x "thinking" acc) m) =
      if a ∈ l then some "thinking" else olookup a m := by
  induction l generalizing m with
  | nil => simp
  | cons x rest ih =>
      simp only [List.foldl_cons]
      rw [ih]
      by_cases hmem : a ∈ rest
      · simp [hmem]
      · by_cases hax : a = x
        · subst hax
          simp [hmem, olookup_objInsert_self]
        · simp [hmem, hax, olookup_objInsert_ne _ _ hax]

/-- Which inbound envelope types append a log entry. -/
def appendsLogEntry : InEnvelope → Bool
  | .message .. => true
  | .error _ => true
  | .sessionStarted _ => true
  | .actionResult .. => true
  | .status .. => false
  | .unknown _ => false

theorem handle_messages_length (now : String) (e : InEnvelope) (s : ChatState) :
    (handleWebSocketMessage now e s).messages.length =
      s.messages.length + (if appendsLogEntry e then 1 else 0) := by
  cases e <;> simp [handleWebSocketMessage, appendsLogEntry]

/-! Claim theorems. -/

/-- Claim C1, counterexample: in a `connecting` state (the held socket
is still `CONNECTING`), a further `connect()` call is not a no-op — it
constructs a new socket and overwrites the session id, because the
early-return guard only checks for an `OPEN` socket. -/
theorem connect_while_connecting_cex :
    connectingState.isConnecting = true ∧
    connectingState.wsRef.map Socket.readyState = some WebSocketCONNECTING ∧
    (connect 2 connectingState).socketsCreated = 1 ∧
    (connect 2 connectingState).state.sessionId ≠ connectingState.sessionId := by
  decide

/-- Claim C1 (amended): a `connect()` call is a no-op exactly when the
held socket is `OPEN` (state `connected`); in every other state —
including `connecting` — it constructs one new socket, marks
`isConnecting`, clears the error, and replaces the session id and the
socket ref. -/
theorem connect_guard_spec (now : Nat) (s : ChatState) :
    (s.wsRef.map Socket.readyState = some WebSocketOPEN →
       connect now s = { state := s, socketsCreated := 0 }) ∧
    (s.wsRef.map Socket.readyState ≠ some WebSocketOPEN →
       (connect now s).socketsCreated = 1 ∧
       (connect now s).state.isConnecting = true ∧
       (connect now s).state.error = none ∧
       (connect now s).state.sessionId = some ("claude-ui-" ++ toString now) ∧
       (connect now s).state.wsRef =
         some { readyState := WebSocketCONNECTING
                url := AUTOGEN_WS_URL ++ "/" ++ ("claude-ui-" ++ toString now) }) := by
  constructor
  · intro h
    simp [connect, h]
  · intro h
    simp [connect, h]

/-- Witness for `connect_guard_spec` at the concrete connecting state. -/
theorem connect_guard_spec_witness :
    (connect 2 connectingState).socketsCreated = 1 ∧
    (connect 2 connectingState).state.isConnecting = true ∧
    (connect 2 connectingState).state.error = none ∧
    (connect 2 connectingState).state.sessionId = some ("claude-ui-" ++ toString 2) ∧
    (connect 2 connectingState).state.wsRef =
      some { readyState := WebSocketCONNECTING
             url := AUTOGEN_WS_URL ++ "/" ++ ("claude-ui-" ++ toString 2) } :=
  (connect_guard_spec 2 connectingState).2 (by decide)

/-- Claim C2, counterexample: with the precondition satisfied,
`sendMessage` drops the status entry of agent `"ollama"`, which is
outside the selected set — the status map is replaced by a fresh
object, not updated. -/
theorem sendMessage_frame_cex :
    (jsTrim sendFrameState.inputValue ≠ "" ∧
     sendFrameState.wsRef.map Socket.readyState = some WebSocketOPEN) ∧
    olookup "ollama" sendFrameState.agentStatuses = some "idle" ∧
    ¬ (olookup "ollama" (sendMessage "t0" sendFrameState).1.agentStatuses =
        some "idle") := by
  decide

/-- Claim C2 (amended): with non-empty trimmed text and an `OPEN`
socket, `sendMessage` appends exactly one `user` message with the
trimmed content, emits exactly one `user_message` envelope, and
replaces the status map wholesale: every selected agent maps to
`thinking` and every agent outside the selected set loses its entry. -/
theorem sendMessage_spec (ts : String) (s : ChatState)
    (htrim : jsTrim s.inputValue ≠ "")
    (hopen : s.wsRef.map Socket.readyState = some WebSocketOPEN) :
    (sendMessage ts s).1.messages =
      s.messages ++
        [{ type := "user", content := some (jsTrim s.inputValue), timestamp := ts }] ∧
    (sendMessage ts s).2 = [OutEnvelope.userMessage (jsTrim s.inputValue)] ∧
    (∀ a, a ∈ s.selectedAgents →
       olookup a (sendMessage ts s).1.agentStatuses = some "thinking") ∧
    (∀ a, a ∉ s.selectedAgents →
       olookup a (sendMessage ts s).1.agentStatuses = none) := by
  refine ⟨?_, ?_, ?_, ?_⟩
  · simp [sendMessage, htrim, hopen]
  · simp [sendMessage, htrim, hopen]
  · intro a ha
    simp only [sendMessage, htrim, hopen]
    simp [olookup_foldl_thinking, ha]
  · intro a ha
    simp only [sendMessage, htrim, hopen]
    simp [olookup_foldl_thinking, ha, olookup]

/-- Witness for `sendMessage_spec` at the concrete connected state. -/
theorem sendMessage_spec_witness :
    (sendMessage "t0" sendFrameState).2 =
      [OutEnvelope.userMessage (jsTrim sendFrameState.inputValue)] ∧
    olookup "gemini" (sendMessage "t0" sendFrameState).1.agentStatuses =
      some "thinking" ∧
    olookup "ollama" (sendMessage "t0" sendFrameState).1.agentStatuses = none :=
  ⟨(sendMessage_spec "t0" sendFrameState (by decide) (by decide)).2.1,
   (sendMessage_spec "t0" sendFrameState (by decide) (by decide)).2.2.1
     "gemini" (by decide),
   (sendMessage_spec "t0" sendFrameState (by decide) (by decide)).2.2.2
     "ollama" (by decide)⟩

/-- Claim C3: calling `startSession` with no open connection triggers
exactly one connection attempt, sends nothing synchronously, and
schedules a 500 ms timer capturing the selected agent list; when the
timer fires, exactly one `start_session` envelope with that list is
sent if the socket is then `OPEN`, and nothing is sent otherwise. -/
theorem startSession_grace_spec (now : Nat) (s sAtTimer : ChatState)
    (h : ¬ (s.wsRef.map Socket.readyState = some WebSocketOPEN)) :
    (startSession now s).socketsCreated = 1 ∧
    (startSession now s).state.isConnecting = true ∧
    (startSession now s).sentNow = [] ∧
    (startSession now s).timerAgents = some s.selectedAgents ∧
    (sAtTimer.wsRef.map Socket.readyState = some WebSocketOPEN →
       startSessionTimerFire s.selectedAgents sAtTimer =
         [OutEnvelope.startSession s.selectedAgents]) ∧
    (¬ (sAtTimer.wsRef.map Socket.readyState = some WebSocketOPEN) →
       startSessionTimerFire s.selectedAgents sAtTimer = []) := by
  refine ⟨?_, ?_, ?_, ?_, ?_, ?_⟩
  · simp [startSession, connect, h]
  · simp [startSession, connect, h]
  · simp [startSession, h]
  · simp [startSession, h]
  · intro hOpen
    simp [startSessionTimerFire, hOpen]
  · intro hClosed
    simp [startSessionTimerFire, hClosed]

/-- Witness for `startSession_grace_spec`: start while fully
disconnected; the connection is `OPEN` when the timer fires. -/
theorem startSession_grace_spec_witness :
    (startSession 1 disconnectedState).socketsCreated = 1 ∧
    (startSession 1 disconnectedState).sentNow = [] ∧
    startSessionTimerFire disconnectedState.selectedAgents openState =
      [OutEnvelope.startSession ["gemini", "claude"]] :=
  ⟨(startSession_grace_spec 1 disconnectedState openState (by decide)).1,
   (startSession_grace_spec 1 disconnectedState openState (by decide)).2.2.1,
   (startSession_grace_spec 1 disconnectedState openState (by decide)).2.2.2.2.1
     (by decide)⟩

/-- Claim C4: each inbound `message`, `error`, `session_started` or
`action_result` envelope appends exactly one log entry and each
`status` or unrecognized envelope appends none, so after any sequence
of envelopes the log length equals its old length plus the count of
envelopes of the four appending types. -/
theorem dispatch_log_growth (now : String) (es : List InEnvelope) (s : ChatState) :
    (∀ e, (handleWebSocketMessage now e s).messages.length =
       s.messages.length + (if appendsLogEntry e then 1 else 0)) ∧
    ((es.foldl (fun st e => handleWebSocketMessage now e st) s).messages).length =
      s.messages.length + es.countP (fun e => appendsLogEntry e) := by
  refine ⟨fun e => handle_messages_length now e s, ?_⟩
  induction es generalizing s with
  | nil => simp
  | cons e rest ih =>
      simp only [List.foldl_cons, List.countP_cons]
      rw [ih, handle_messages_length]
      by_cases h : appendsLogEntry e <;> (simp [h]; try omega)

/-- Claim C7: `disconnect` on a state holding an `OPEN` socket sends
exactly one `end_session` envelope; in every state it clears the
session id and the connected flag; and the subsequent transport close
event empties the agent-status map. -/
theorem disconnect_end_session_spec :
    (∀ s ws, s.wsRef = some ws → ws.readyState = WebSocketOPEN →
       (disconnect s).2 = [OutEnvelope.endSession]) ∧
    (∀ s, (disconnect s).1.sessionId = none ∧
       (disconnect s).1.isConnected = false ∧
       (onClose (disconnect s).1).agentStatuses = []) := by
  constructor
  · intro s ws h hOpen
    simp [disconnect, h, hOpen]
  · intro s
    cases hw : s.wsRef <;> simp [disconnect, hw, onClose]

/-- Witness for `disconnect_end_session_spec` at the concrete connected
state. -/
theorem disconnect_end_session_spec_witness :
    (disconnect openState).2 = [OutEnvelope.endSession] ∧
    (disconnect openState).1.sessionId = none ∧
    (disconnect openState).1.isConnected = false ∧
    (onClose (disconnect openState).1).agentStatuses = [] :=
  ⟨disconnect_end_session_spec.1 openState
     { readyState := WebSocketOPEN, url := AUTOGEN_WS_URL ++ "/claude-ui-1" }
     rfl rfl,
   (disconnect_end_session_spec.2 openState).1,
   (disconnect_end_session_spec.2 openState).2.1,
   (disconnect_end_session_spec.2 openState).2.2⟩

/-- Claim C8: a click on an agent-selector button leaves the selection
unchanged while connected (the button is disabled); while not
connected, it removes the id when present (leaving all other ids'
membership intact) and appends it when absent. -/
theorem toggleAgentSelection_spec (agentId : String) (s : ChatState) :
    (s.isConnected = true → agentButtonClick agentId s = s) ∧
    (s.isConnected = false → s.selectedAgents.contains agentId = true →
       agentId ∉ (agentButtonClick agentId s).selectedAgents ∧
       ∀ b, b ≠ agentId →
         (b ∈ (agentButtonClick agentId s).selectedAgents ↔ b ∈ s.selectedAgents)) ∧
    (s.isConnected = false → s.selectedAgents.contains agentId = false →
       (agentButtonClick agentId s).selectedAgents = s.selectedAgents ++ [agentId]) := by
  refine ⟨?_, ?_, ?_⟩
  · intro h
    simp [agentButtonClick, h]
  · intro hc hmem
    have hm : agentId ∈ s.selectedAgents := by simpa using hmem
    constructor
    · simp [agentButtonClick, hc, toggleAgent, hmem, hm, List.mem_filter]
    · intro b hb
      simp [agentButtonClick, hc, toggleAgent, hmem, hm, List.mem_filter, hb]
  · intro hc hmem
    have hm : agentId ∉ s.selectedAgents := by simpa using hmem
    simp [agentButtonClick, hc, toggleAgent, hmem, hm]

/-- Witness for `toggleAgentSelection_spec`: a click while connected is
ignored; while disconnected, a selected id is removed and a fresh id is
appended. -/
theorem toggleAgentSelection_spec_witness :
    agentButtonClick "gemini" openState = openState ∧
    "gemini" ∉ (agentButtonClick "gemini" disconnectedState).selectedAgents ∧
    (agentButtonClick "ollama" disconnectedState).selectedAgents =
      disconnectedState.selectedAgents ++ ["ollama"] :=
  ⟨(toggleAgentSelection_spec "gemini" openState).1 rfl,
   ((toggleAgentSelection_spec "gemini" disconnectedState).2.1 rfl (by decide)).1,
   (toggleAgentSelection_spec "ollama" disconnectedState).2.2 rfl (by decide)⟩

/-- Claim C9: a `status` envelope marking agent `A` as `thinking`
followed by a `message` envelope whose sender is `A` leaves `A`'s
status entry at `idle`; the object key is the lower-cased agent name in
both handlers. -/
theorem status_then_message_resets_idle (s : ChatState) (now now' : String)
    (A : String) (c t : Option String) :
    olookup A.toLower
      ((handleWebSocketMessage now' (InEnvelope.message (some A) c t)
        (handleWebSocketMessage now (InEnvelope.status (some A) "thinking") s)).agentStatuses) =
      some "idle" := by
  simp [handleWebSocketMessage, jsKey, olookup_objInsert_self]

/-- Claim C5: every probe outcome is classified totally — a 2xx
response with parseable body is `online` with the payload retained, a
non-2xx response is `error` with the HTTP status code in the message, a
timeout abort is `timeout`, any other transport failure is `offline`
with the failure's message — and every outcome lands in one of these
four states (no pending state). -/
theorem checkServiceHealth_classification :
    (∀ lat st payload, responseOk st = true →
       checkServiceHealth lat (FetchOutcome.response st (BodyParse.ok payload)) =
         { status := "online", data := some payload, latency := some lat }) ∧
    (∀ lat st body, responseOk st = false →
       checkServiceHealth lat (FetchOutcome.response st body) =
         { status := "error", error := some ("HTTP " ++ toString st) }) ∧
    (∀ lat msg, checkServiceHealth lat (FetchOutcome.failure "AbortError" msg) =
       { status := "timeout", error := some "Request timeout" }) ∧
    (∀ lat nm msg, nm ≠ "AbortError" →
       checkServiceHealth lat (FetchOutcome.failure nm msg) =
         { status := "offline", error := some msg }) ∧
    (∀ lat o, (checkServiceHealth lat o).status ∈
       (["online", "error", "timeout", "offline"] : List String)) := by
  refine ⟨?_, ?_, ?_, ?_, ?_⟩
  · intro lat st payload h
    simp [checkServiceHealth, h]
  · intro lat st body h
    simp [checkServiceHealth, h]
  · intro lat msg
    simp [checkServiceHealth, healthCatch]
  · intro lat nm msg h
    simp [checkServiceHealth, healthCatch, h]
  · intro lat o
    cases o with
    | response st body =>
        by_cases h : responseOk st = true
        · cases body <;> simp [checkServiceHealth, healthCatch, h]
        · simp [checkServiceHealth, h]
    | failure nm msg =>
        by_cases h : nm = "AbortError" <;> simp [checkServiceHealth, healthCatch, h]

/-- Witness for `checkServiceHealth_classification` at concrete
outcomes of each kind. -/
theorem checkServiceHealth_classification_witness :
    checkServiceHealth 0 (FetchOutcome.response 200 (BodyParse.ok "p")) =
      { status := "online", data := some "p", latency := some 0 } ∧
    checkServiceHealth 0 (FetchOutcome.response 503 (BodyParse.ok "p")) =
      { status := "error", error := some ("HTTP " ++ toString 503) } ∧
    checkServiceHealth 0 (FetchOutcome.failure "AbortError" "m") =
      { status := "timeout", error := some "Request timeout" } ∧
    checkServiceHealth 0 (FetchOutcome.failure "TypeError" "m") =
      { status := "offline", error := some "m" } :=
  ⟨checkServiceHealth_classification.1 0 200 "p" (by decide),
   checkServiceHealth_classification.2.1 0 503 (BodyParse.ok "p") (by decide),
   checkServiceHealth_classification.2.2.1 0 "m",
   checkServiceHealth_classification.2.2.2.1 0 "TypeError" "m" (by decide)⟩

/-- Claim C6: `refreshAll` terminates with a status entry for every
configured service under any probe outcomes, sets the last-refreshed
timestamp regardless, replaces the status map wholesale (its result
never depends on the previous state), and its trace runs all probes in
configuration order before the single store of the status map, ending
with the timestamp update. -/
theorem refreshAll_spec (probe : Service → FetchOutcome) (lat : Service → Int)
    (now : Nat) (s : DashState) :
    (∀ svc, svc ∈ SERVICES →
       (hlookup svc.id (refreshAll probe lat now s).1.serviceStatuses).isSome = true) ∧
    (refreshAll probe lat now s).1.lastUpdated = some now ∧
    (∀ s', (refreshAll probe lat now s).1 = (refreshAll probe lat now s').1) ∧
    ((refreshAll probe lat now s).2.take (SERVICES.length + 1) =
       SERVICES.map (fun svc => DashEvent.probed svc.id) ++ [DashEvent.storedStatuses]) ∧
    (refreshAll probe lat now s).2.getLast? = some DashEvent.setLastUpdated := by
  refine ⟨?_, rfl, fun s' => rfl, ?_, ?_⟩
  · intro svc hmem
    simp only [SERVICES, List.mem_cons, List.not_mem_nil, or_false] at hmem
    rcases hmem with rfl | rfl | rfl | rfl <;>
      simp [refreshAll, SERVICES, hlookup]
  · simp [refreshAll, SERVICES]
  · exact (List.getLast?_append_cons _ DashEvent.setLastUpdated []).trans rfl

/-- Witness for `refreshAll_spec` in an environment where every probe
fails with a network error. -/
theorem refreshAll_spec_witness :
    (hlookup "n8n"
      (refreshAll allFailProbe (fun _ => 0) 5 initialDashState).1.serviceStatuses).isSome =
      true ∧
    (refreshAll allFailProbe (fun _ => 0) 5 initialDashState).1.lastUpdated = some 5 :=
  ⟨(refreshAll_spec allFailProbe (fun _ => 0) 5 initialDashState).1
     { id := "n8n", healthUrl := "http://localhost:5678/healthz" } (by decide),
   (refreshAll_spec allFailProbe (fun _ => 0) 5 initialDashState).2.1⟩

/-- Claim C10: a 2xx response whose body fails to parse is classified
`offline` carrying the parse failure's message — not `online` and not
`error` — because `response.json()`'s exception lands in the same
`catch` as transport failures and is not an `AbortError`. -/
theorem probe_2xx_unparseable_offline (lat : Int) (st : Nat) (msg : String)
    (h : responseOk st = true) :
    checkServiceHealth lat (FetchOutcome.response st (BodyParse.fail msg)) =
      { status := "offline", error := some msg } := by
  simp [checkServiceHealth, healthCatch, h]

/-- Witness for `probe_2xx_unparseable_offline` at HTTP 200 with a
broken JSON body. -/
theorem probe_2xx_unparseable_offline_witness :
    checkServiceHealth 0 (FetchOutcome.response 200 (BodyParse.fail "Unexpected token")) =
      { status := "offline", error := some "Unexpected token" } :=
  probe_2xx_unparseable_offline 0 200 "Unexpected token" (by decide)

end ClaudeCodeUI
